import Mathlib

/-!
Verification of the query-understanding and retrieval pipeline of the
product-intelligence system: filter extraction (`backend/query_parser.py`),
metadata filtering, subset-constrained semantic retrieval
(`backend/agents/retriever.py`), the clarification engine
(`backend/clarification.py`), the session store (`backend/session_manager.py`)
and the orchestrator's JSON extraction (`backend/crew_setup.py`).

Strings are modelled as Lean `String`/`List Char`; Python regex searches are
embedded as deterministic character-level matchers equivalent to the specific
patterns used by the source (all of which are backtracking-free, as argued in
comments at each matcher).  External collaborators (the FAISS index and the
embedding service) are abstracted by a similarity-ranked list of catalog
indices, exactly the data the source consumes from `index.search`.
-/

namespace ProductIntel

/-! ## Character and string helpers (Python semantics) -/

/-- Python `\s` whitespace class (ASCII range, which is what the data uses). -/
def isPySpace (c : Char) : Bool :=
  c = ' ' || c = '\t' || c = '\n' || c = '\r' || c = '\x0b' || c = '\x0c'

/-- `str.lower()` (ASCII). -/
def strLower (s : String) : String := String.mk (s.toList.map Char.toLower)

/-- `str.upper()` (ASCII). -/
def strUpper (s : String) : String := String.mk (s.toList.map Char.toUpper)

/-- Does `hay` start with `needle`? -/
def startsWithChars : List Char → List Char → Bool
  | [], _ => true
  | _ :: _, [] => false
  | a :: as, b :: bs => a = b && startsWithChars as bs

/-- Substring test on character lists (Python `needle in hay`). -/
def substrAux (needle : List Char) : List Char → Bool
  | [] => startsWithChars needle []
  | c :: rest => startsWithChars needle (c :: rest) || substrAux needle rest

/-- Python `needle in hay` on strings. -/
def pyContains (needle hay : String) : Bool := substrAux needle.toList hay.toList

/-- Python `str.strip()` (both ends, whitespace). -/
def pyStrip (l : List Char) : List Char :=
  ((l.dropWhile isPySpace).reverse.dropWhile isPySpace).reverse

/-- Python `str.split()`: split on whitespace runs, discarding empty pieces. -/
def pySplitWs (s : String) : List String :=
  ((s.toList.splitOnP isPySpace).filter (fun w => !w.isEmpty)).map String.mk

/-- Numeric value of a digit run (`int(...)` on a `\d+` group). -/
def natOfDigits (l : List Char) : Nat :=
  l.foldl (fun n c => n * 10 + (c.toNat - '0'.toNat)) 0

/-- Generic `re.search`: try the matcher at each start position, left to right,
returning the leftmost success.  (None of the embedded patterns can match the
empty string, so the final empty position never matches.) -/
def searchFirst (f : List Char → Option α) : List Char → Option α
  | [] => none
  | c :: rest =>
    match f (c :: rest) with
    | some a => some a
    | none => searchFirst f rest

/-! ## Data model -/

/-- A tool's `torque_range` JSON value: a string, or the non-string float NaN
that `json.load` produces for a bare `NaN` in the data file. -/
inductive TRVal where
  | str (s : String)
  | nanFloat
deriving DecidableEq, Repr

/-- Catalog record (Python dict loaded from `tools.json`).  `none` models an
absent key (`dict.get` default paths in the source). -/
structure Tool where
  tool_name : Option String := none
  category : Option String := none
  application_type : Option String := none
  voltage : Option String := none
  torque_range : Option TRVal := none
  ip_rating : Option String := none
  specifications : List String := []
  image_path : Option String := none
deriving DecidableEq, Repr

/-- Extracted metadata filters (`extract_filters` result dict); `none` models
an absent key. -/
structure FilterSet where
  voltage : Option String := none
  torque : Option Nat := none
  ip_rating : Option String := none
  application_type : Option String := none
deriving DecidableEq, Repr

/-- Python truthiness of the filters dict (`if not filters`). -/
def FilterSet.isEmpty (f : FilterSet) : Bool :=
  f.voltage.isNone && f.torque.isNone && f.ip_rating.isNone && f.application_type.isNone

/-! ## Filter extraction (`backend/query_parser.py`, `extract_filters`) -/

/-- Match `(\d+\s?V)` (IGNORECASE) at the start of the list, returning the
matched group.  The pattern is backtracking-free at a fixed position: `\d+`
must be the maximal digit run (shortening it leaves a digit where `\s?`/`V`
would have to match), so the greedy walk below is exact. -/
def matchVoltageAt (l : List Char) : Option (List Char) :=
  let ds := l.takeWhile Char.isDigit
  let r := l.dropWhile Char.isDigit
  if ds.isEmpty then none
  else
    match r with
    | c1 :: c2 :: _ =>
        if isPySpace c1 && (c2 = 'V' || c2 = 'v') then some (ds ++ [c1, c2])
        else if c1 = 'V' || c1 = 'v' then some (ds ++ [c1])
        else none
    | [c1] => if c1 = 'V' || c1 = 'v' then some (ds ++ [c1]) else none
    | [] => none

/-- Match `(\d+)\s*Nm` (IGNORECASE) at the start, returning `int(group(1))`. -/
def matchTorqueAt (l : List Char) : Option Nat :=
  let ds := l.takeWhile Char.isDigit
  let r := (l.dropWhile Char.isDigit).dropWhile isPySpace
  if ds.isEmpty then none
  else
    match r with
    | c1 :: c2 :: _ =>
        if (c1 = 'N' || c1 = 'n') && (c2 = 'm' || c2 = 'M') then some (natOfDigits ds)
        else none
    | _ => none

/-- Match `(IP\d+)` (IGNORECASE) at the start, returning the matched group. -/
def matchIpAt (l : List Char) : Option (List Char) :=
  match l with
  | c1 :: c2 :: rest =>
      if (c1 = 'I' || c1 = 'i') && (c2 = 'P' || c2 = 'p') then
        let ds := rest.takeWhile Char.isDigit
        if ds.isEmpty then none else some (c1 :: c2 :: ds)
      else none
  | _ => none

/-- Application-type keyword decision list of `extract_filters`
(ordered, first match wins). -/
def appTypeOf (ql : String) : Option String :=
  if pyContains "cordless" ql || pyContains "portable" ql then
    some "Manual / Portable"
  else if pyContains "automation" ql || pyContains "assembly line" ql
      || pyContains "automated" ql then
    some "Automation"
  else if pyContains "manual" ql && !pyContains "portable" ql then
    some "Manual"
  else if pyContains "controller" ql || pyContains "control system" ql then
    some "Control System"
  else if pyContains "verification" ql || pyContains "calibration" ql then
    some "Quality / Verification"
  else none

/-- `extract_filters(query)` from `backend/query_parser.py`. -/
def extract_filters (query : String) : FilterSet :=
  let ql := strLower query
  { voltage := (searchFirst matchVoltageAt query.toList).map
      (fun g => String.mk ((g.filter (fun c => c ≠ ' ')).map Char.toUpper))
    torque := searchFirst matchTorqueAt query.toList
    ip_rating := (searchFirst matchIpAt query.toList).map
      (fun g => String.mk (g.map Char.toUpper))
    application_type := appTypeOf ql }

/-! ## Torque-range check (`_torque_in_range`) -/

/-- Match `(\d+)[–\-](\d+)` at the start (maximal digit runs; shortening a
run leaves a digit where the separator/second run must match, so the pattern
is backtracking-free at a fixed position). -/
def matchRangeAt (l : List Char) : Option (Nat × Nat) :=
  let ds1 := l.takeWhile Char.isDigit
  let r1 := l.dropWhile Char.isDigit
  if ds1.isEmpty then none
  else
    match r1 with
    | sep :: r2 =>
        if sep = '–' || sep = '-' then
          let ds2 := r2.takeWhile Char.isDigit
          if ds2.isEmpty then none else some (natOfDigits ds1, natOfDigits ds2)
        else none
    | [] => none

/-- `re.search(r'(\d+)[–\-](\d+)', s)` as a pair of parsed bounds. -/
def searchRangePair (s : String) : Option (Nat × Nat) :=
  searchFirst matchRangeAt s.toList

/-- `_torque_in_range(requested_torque, torque_range)` from
`backend/query_parser.py`.  The second argument is the raw JSON value:
`none` = Python `None`, `TRVal.nanFloat` = a non-string (float NaN). -/
def _torque_in_range (requested : Int) (tr : Option TRVal) : Bool :=
  match tr with
  | none => false
  | some TRVal.nanFloat => false
  | some (TRVal.str s) =>
    if s = "" then false
    else if s = "NaN" then false
    else if (pyStrip s.toList).isEmpty then false
    else
      match searchRangePair s with
      | some (lo, hi) => decide ((lo : Int) ≤ requested ∧ requested ≤ (hi : Int))
      | none => false

/-! ## Metadata filtering (`apply_metadata_filters`) -/

/-- One optional-key filtering step: Python's
`if key in filters: filtered = [t for t in filtered if pred]`. -/
def ofilter (o : Option β) (p : β → Tool → Bool) (ts : List Tool) : List Tool :=
  match o with
  | some v => ts.filter (p v)
  | none => ts

def voltagePred (v : String) (t : Tool) : Bool :=
  pyContains v (strUpper (t.voltage.getD ""))

def ipPred (ipr : String) (t : Tool) : Bool :=
  strUpper (t.ip_rating.getD "") = ipr

def appPred (a : String) (t : Tool) : Bool :=
  t.application_type = some a

def torquePred (tq : Nat) (t : Tool) : Bool :=
  _torque_in_range (tq : Int) (some (t.torque_range.getD (TRVal.str "")))

/-- `apply_metadata_filters(tools, filters)` from `backend/query_parser.py`:
keys applied in source order voltage, ip_rating, application_type, torque. -/
def apply_metadata_filters (tools : List Tool) (filters : FilterSet) : List Tool :=
  if filters.isEmpty then tools
  else
    ofilter filters.torque torquePred
      (ofilter filters.application_type appPred
        (ofilter filters.ip_rating ipPred
          (ofilter filters.voltage voltagePred tools)))

/-- Second definition, following the spec's claim that the order of key
application does not affect the result: the same independent per-key
predicates applied in the reverse order. -/
def apply_metadata_filters_revorder (tools : List Tool) (filters : FilterSet) : List Tool :=
  if filters.isEmpty then tools
  else
    ofilter filters.voltage voltagePred
      (ofilter filters.ip_rating ipPred
        (ofilter filters.application_type appPred
          (ofilter filters.torque torquePred tools)))

/-! ## Subset-constrained retrieval (`backend/agents/retriever.py`)

The FAISS index plus embedding service is abstracted by `allRanked`, the
similarity-ordered list of catalog indices that `index.search(query_vector, k)`
returns (the source requests `len(all_tools)` neighbours, i.e. the full
ranking, in `semantic_search_on_subset`, and `top_k` in the unfiltered path —
modelled as `allRanked.take top_k`). -/

/-- Line 90 of `retriever.py`:
`filtered_indices = [all_tools.index(tool) for tool in filtered_tools]` —
Python `list.index` is value-equality lookup returning the first occurrence. -/
def filteredIndicesOf (filtered_tools all_tools : List Tool) : List Nat :=
  filtered_tools.map (fun t => all_tools.indexOf t)

/-- Line 102: `[idx for idx in all_indices[0] if idx in filtered_indices]`. -/
def semanticMatchedIndices (filtered_tools all_tools : List Tool)
    (allRanked : List Nat) : List Nat :=
  allRanked.filter (fun idx => decide (idx ∈ filteredIndicesOf filtered_tools all_tools))

/-- `semantic_search_on_subset(query, filtered_tools, all_tools, index_path, top_k)`
from `backend/agents/retriever.py` (lines 75-106). -/
def semantic_search_on_subset (filtered_tools all_tools : List Tool)
    (allRanked : List Nat) (top_k : Nat) : List Tool :=
  let results := ((semanticMatchedIndices filtered_tools all_tools allRanked).take top_k).filterMap
    (fun idx => all_tools.get? idx)
  if results.isEmpty then filtered_tools.take top_k else results

/-- `retrieve_tools(query, top_k, use_filters)` from `backend/agents/retriever.py`
(lines 29-72), with the catalog and the similarity ranking as parameters. -/
def retrieve_tools (catalog : List Tool) (allRanked : List Nat) (query : String)
    (top_k : Nat) (use_filters : Bool) : List Tool :=
  let filters := if use_filters then extract_filters query else {}
  if !filters.isEmpty then
    let filtered_tools := apply_metadata_filters catalog filters
    if !filtered_tools.isEmpty then
      semantic_search_on_subset filtered_tools catalog allRanked 1
    else []
  else
    (((allRanked.take top_k).filterMap (fun i => catalog.get? i)).take 1)

/-! ## Clarification engine (`backend/clarification.py`) -/

/-- Stop-words removed from the keyword vocabulary (`common_words`). -/
def commonWords : List String :=
  ["the", "a", "an", "for", "with", "and", "or", "-",
   "tool", "machine", "device", "equipment", "system"]

/-- `_load_tool_names()` over an explicit catalog (the source reads the same
records from `data/tools.json`; the module-level cache is irrelevant to the
result).  Keywords: full lowercased tool names, words of tool names, words of
categories; minus `common_words`.  A Python set is modelled as a list, which
is equivalent for the membership tests the source performs. -/
def load_tool_names (catalog : List Tool) : List String :=
  let kws := catalog.foldl (fun acc t =>
    let acc := match t.tool_name with
      | some nm => if nm ≠ "" then acc ++ [strLower nm] ++ pySplitWs (strLower nm) else acc
      | none => acc
    match t.category with
    | some c => if c ≠ "" then acc ++ pySplitWs (strLower c) else acc
    | none => acc) []
  kws.filter (fun w => !commonWords.contains w)

def genericTerms : List String := ["tool", "machine", "device", "equipment"]

def vaguePhrases : List String :=
  ["i want", "i need", "looking for", "show me", "give me", "find me", "help with"]

/-- `needs_clarification(query, filters, filtered_tools)` from
`backend/clarification.py` (lines 70-128), over an explicit catalog. -/
def needs_clarification (catalog : List Tool) (query : String) (filters : FilterSet)
    (filtered_tools : List Tool) : Bool :=
  let ql := strLower query
  let query_words := pySplitWs ql
  if !filters.isEmpty && decide (filtered_tools.length > 0)
      && decide (filtered_tools.length ≤ 3) then false
  else
    let specific_tools := load_tool_names catalog
    let has_specific_tool := specific_tools.any (fun kw => pyContains kw ql)
    if has_specific_tool && decide (filtered_tools.length > 0) then
      decide (filtered_tools.length > 3)
    else
      let has_generic_term := genericTerms.any (fun t => query_words.contains t)
      let has_vague_phrase := vaguePhrases.any (fun p => pyContains p ql)
      if (has_generic_term || has_vague_phrase) && !has_specific_tool && filters.isEmpty then
        true
      else if decide (query_words.length < 2) && filters.isEmpty && !has_specific_tool then
        true
      else if decide (filtered_tools.length > 3) then true
      else if decide (filtered_tools.length = 0) then true
      else false

/-- Second definition, following the spec's words: the six-rule ordered
decision policy of §4.4, with the first applicable rule deciding. -/
def needs_clarification_policy (catalog : List Tool) (query : String) (filters : FilterSet)
    (results : List Tool) : Bool :=
  let ql := strLower query
  let query_words := pySplitWs ql
  let has_specific_tool := (load_tool_names catalog).any (fun kw => pyContains kw ql)
  let has_generic_term := genericTerms.any (fun t => query_words.contains t)
  let has_vague_phrase := vaguePhrases.any (fun p => pyContains p ql)
  if !filters.isEmpty && decide (1 ≤ results.length) && decide (results.length ≤ 3) then
    false
  else if has_specific_tool && decide (results.length > 0) then
    decide (results.length > 3)
  else
    ((has_generic_term || has_vague_phrase) && !has_specific_tool && filters.isEmpty)
    || (decide (query_words.length < 2) && filters.isEmpty && !has_specific_tool)
    || decide (results.length > 3)
    || decide (results.length = 0)

/-- The `suggestions` dict of a clarification payload; `none` models an absent
key.  `torque_examples` holds raw `torque_range` values (the source copies
them verbatim, so a non-string NaN can appear there). -/
structure Suggestions where
  categories : Option (List String) := none
  application_types : Option (List String) := none
  examples : Option (List String) := none
  voltage_options : Option (List String) := none
  torque_examples : Option (List TRVal) := none
  ip_rating_options : Option (List String) := none
deriving DecidableEq, Repr

/-- A clarification payload (`status`, `message`, `questions`, `suggestions`). -/
structure ClarPayload where
  status : String
  message : String
  questions : List String
  suggestions : Suggestions
deriving DecidableEq, Repr

/-- Lexicographic order on strings by code point (Python `<` on `str`). -/
def charListLe : List Char → List Char → Bool
  | [], _ => true
  | _ :: _, [] => false
  | a :: as, b :: bs => if a = b then charListLe as bs else decide (a.toNat < b.toNat)

def strLeB (a b : String) : Bool := charListLe a.toList b.toList

def insertSorted (a : String) : List String → List String
  | [] => [a]
  | b :: bs => if strLeB a b then a :: b :: bs else b :: insertSorted a bs

/-- Ascending insertion sort (total order `strLeB`). -/
def sortStrings : List String → List String
  | [] => []
  | a :: as => insertSorted a (sortStrings as)

/-- Python `sorted(set(xs))`: the distinct elements in ascending order. -/
def sortedDedup (l : List String) : List String := sortStrings l.dedup

/-- Truthy optional string (`if t.get(key)` in a comprehension): present and
non-empty. -/
def truthyStr (o : Option String) : Option String :=
  match o with
  | some v => if v = "" then none else some v
  | none => none

/-- `sorted(set(t.get('voltage','N/A') for t in filtered_tools if t.get('voltage')))`. -/
def voltageCandidates (filtered_tools : List Tool) : List String :=
  sortedDedup (filtered_tools.filterMap (fun t => truthyStr t.voltage))

/-- `sorted(set(t.get('application_type','N/A') for t in filtered_tools))`. -/
def appTypeCandidates (filtered_tools : List Tool) : List String :=
  sortedDedup (filtered_tools.map (fun t => t.application_type.getD "N/A"))

/-- `[t.get('torque_range','N/A') for t in filtered_tools if t.get('torque_range')
and t.get('torque_range') != 'NaN']` (a non-string NaN is truthy and unequal
to the string 'NaN', so it passes). -/
def torqueCandidates (filtered_tools : List Tool) : List TRVal :=
  filtered_tools.filterMap (fun t =>
    match t.torque_range with
    | some (TRVal.str s) => if s ≠ "" && s ≠ "NaN" then some (TRVal.str s) else none
    | some TRVal.nanFloat => some TRVal.nanFloat
    | none => none)

/-- `sorted(set(t.get('ip_rating','N/A') for t in filtered_tools if t.get('ip_rating')))`. -/
def ipCandidates (filtered_tools : List Tool) : List String :=
  sortedDedup (filtered_tools.filterMap (fun t => truthyStr t.ip_rating))

/-- The `len(filtered_tools) > 3` branch of `generate_clarification_question`
(`backend/clarification.py`, lines 167-206). -/
def genclarTooMany (filters : FilterSet) (filtered_tools : List Tool) : ClarPayload :=
  let voltages := voltageCandidates filtered_tools
  let app_types := appTypeCandidates filtered_tools
  let torque_ranges := torqueCandidates filtered_tools
  let ip_ratings := ipCandidates filtered_tools
  let step1 : List String × Suggestions :=
    if filters.voltage.isNone && decide (voltages.length > 1) then
      (["What voltage do you need?"], { voltage_options := some voltages })
    else ([], {})
  let step2 : List String × Suggestions :=
    if filters.application_type.isNone && decide (app_types.length > 1) then
      (step1.1 ++ ["Is this for manual use or automation?"],
       { step1.2 with application_types := some app_types })
    else step1
  let step3 : List String × Suggestions :=
    if filters.torque.isNone && !torque_ranges.isEmpty then
      (step2.1 ++ ["What torque range do you require?"],
       { step2.2 with torque_examples := some (torque_ranges.take 3) })
    else step2
  let step4 : List String × Suggestions :=
    if filters.ip_rating.isNone && step3.1.isEmpty && decide (ip_ratings.length > 1) then
      (step3.1 ++ ["Do you need a specific IP rating?"],
       { step3.2 with ip_rating_options := some ip_ratings })
    else step3
  { status := "needs_clarification"
    message := "I found " ++ toString filtered_tools.length
      ++ " tools that might match. Please provide more details:"
    questions := step4.1.take 2
    suggestions := step4.2 }

/-- `generate_clarification_question(query, filters, filtered_tools, all_tools)`
from `backend/clarification.py` (lines 130-241). -/
def generate_clarification_question (query : String) (filters : FilterSet)
    (filtered_tools all_tools : List Tool) : ClarPayload :=
  if filtered_tools.length = 0 then
    { status := "needs_clarification"
      message := "I couldn\x27t find any tools matching your criteria. Could you provide more details?"
      questions := ["What type of tool are you looking for?",
                    "What will be the primary use case?"]
      suggestions :=
        { categories := some (sortedDedup (all_tools.map (fun t => t.category.getD "N/A")))
          application_types :=
            some (sortedDedup (all_tools.map (fun t => t.application_type.getD "N/A")))
          examples := some ["cordless nutrunner", "handheld screwdriver",
                            "automation spindle", "verification system"] } }
  else if filtered_tools.length > 3 then
    genclarTooMany filters filtered_tools
  else if decide ((pySplitWs query).length < 2) && filters.isEmpty then
    { status := "needs_clarification"
      message := "Your query is too vague. Could you be more specific?"
      questions := ["What type of tool are you looking for?",
                    "What is your intended use case?"]
      suggestions :=
        { examples := some ["cordless nutrunner", "handheld screwdriver",
                            "automation spindle", "torque verification system"] } }
  else
    let questions :=
      (if filters.torque.isNone then ["What torque range do you require (in Nm)?"] else [])
      ++ (if filters.application_type.isNone then ["Is this for automation or manual use?"] else [])
      ++ (if filters.voltage.isNone then
            ["Do you have any voltage preference (e.g., 18V, 230V, 400V)?"] else [])
    { status := "needs_clarification"
      message := "Could you provide more details about your requirements?"
      questions := questions.take 2
      suggestions := {} }

/-- Second definition, following the claim's words for the too-many-results
payload: check voltage, application type, torque, IP rating in that order,
propose a dimension only if its filtered candidates have more than one
distinct value, cap at 2 questions. -/
def genclarTooManyClaimed (filters : FilterSet) (filtered_tools : List Tool) : ClarPayload :=
  let voltages := voltageCandidates filtered_tools
  let app_types := appTypeCandidates filtered_tools
  let torque_ranges := torqueCandidates filtered_tools
  let ip_ratings := ipCandidates filtered_tools
  let qs :=
    (if filters.voltage.isNone && decide (voltages.length > 1) then
      ["What voltage do you need?"] else [])
    ++ (if filters.application_type.isNone && decide (app_types.length > 1) then
      ["Is this for manual use or automation?"] else [])
    ++ (if filters.torque.isNone && decide (torque_ranges.dedup.length > 1) then
      ["What torque range do you require?"] else [])
    ++ (if filters.ip_rating.isNone && decide (ip_ratings.length > 1) then
      ["Do you need a specific IP rating?"] else [])
  { status := "needs_clarification"
    message := "I found " ++ toString filtered_tools.length
      ++ " tools that might match. Please provide more details:"
    questions := qs.take 2
    suggestions := {} }

/-- The voltage question of the too-many-results payload, under the code's
condition (a question-list clause of the amended claim C4). -/
def qVolt (filters : FilterSet) (filtered_tools : List Tool) : List String :=
  if filters.voltage.isNone && decide ((voltageCandidates filtered_tools).length > 1) then
    ["What voltage do you need?"]
  else []

/-- The application-type question clause of the amended claim C4. -/
def qApp (filters : FilterSet) (filtered_tools : List Tool) : List String :=
  if filters.application_type.isNone
      && decide ((appTypeCandidates filtered_tools).length > 1) then
    ["Is this for manual use or automation?"]
  else []

/-- The torque question clause of the amended claim C4: proposed whenever any
candidate has a usable torque range (no more-than-one-distinct requirement). -/
def qTorque (filters : FilterSet) (filtered_tools : List Tool) : List String :=
  if filters.torque.isNone && !(torqueCandidates filtered_tools).isEmpty then
    ["What torque range do you require?"]
  else []

/-- The IP-rating question clause of the amended claim C4: checked only when
no earlier dimension produced a question. -/
def qIp (filters : FilterSet) (filtered_tools : List Tool) : List String :=
  if filters.ip_rating.isNone
      && (qVolt filters filtered_tools ++ qApp filters filtered_tools
          ++ qTorque filters filtered_tools).isEmpty
      && decide ((ipCandidates filtered_tools).length > 1) then
    ["Do you need a specific IP rating?"]
  else []

/-! ## Session store (`backend/session_manager.py`)

Timestamps are natural numbers (seconds); `SESSION_TIMEOUT` is the source's
30-minute window.  The process-wide `sessions` dict is modelled as a map from
ids to optional records, threaded explicitly through the operations. -/

/-- One `conversation_history` entry: (timestamp, query, response rendering). -/
structure HistoryEntry where
  timestamp : Nat
  query : String
  response : String
deriving DecidableEq, Repr

structure SessionData where
  session_id : String
  conversation_history : List HistoryEntry
  extracted_filters : FilterSet
  last_query : String
  clarification_count : Nat
  created_at : Nat
  last_accessed : Nat
deriving DecidableEq, Repr

def SESSION_TIMEOUT : Nat := 30 * 60

def SessionStore : Type := String → Option SessionData

/-- `create_session(session_id)` at time `now`. -/
def create_session (sid : String) (now : Nat) (store : SessionStore) :
    SessionData × SessionStore :=
  let s : SessionData :=
    { session_id := sid, conversation_history := [], extracted_filters := {}
      last_query := "", clarification_count := 0, created_at := now, last_accessed := now }
  (s, fun k => if k = sid then some s else store k)

/-- `cleanup_expired_sessions()` at time `now` (lines 137-148): delete every
session whose inactivity strictly exceeds the timeout. -/
def cleanup_expired_sessions (now : Nat) (store : SessionStore) : SessionStore :=
  fun k =>
    match store k with
    | some s => if now - s.last_accessed > SESSION_TIMEOUT then none else some s
    | none => none

/-- `get_session(session_id)` at time `now` (lines 35-53): lazily evict, then
either refresh `last_accessed` of the surviving session or create a fresh one. -/
def get_session (sid : String) (now : Nat) (store : SessionStore) :
    SessionData × SessionStore :=
  let st1 := cleanup_expired_sessions now store
  match st1 sid with
  | some s =>
      let s' := { s with last_accessed := now }
      (s', fun k => if k = sid then some s' else st1 k)
  | none => create_session sid now st1

/-! ## Orchestrator JSON extraction (`backend/crew_setup.py`, lines 144-158)

The recommendation service's free text is a character list.  The source
applies `re.search(r'\{[^{}]*(?:\{[^{}]*\}[^{}]*)*\}', result_str)` and, on a
match, `json.loads` of the matched text; otherwise it returns the dict
`("error": "No JSON found in response", "raw": result_str)` — it never raises.
The regex admits brace nesting of depth at most 2; the matchers below are the
exact deterministic reading of that pattern (at a fixed start the pattern is
backtracking-free: inner `[^{}]*` runs are bounded by the next brace, and a
depth-3 opening brace kills every alternative). -/

mutual
/-- Scanning at depth 1 (inside the outer brace pair): a `\x7d` closes the
match, a `\x7b` descends to depth 2, anything else is consumed by `[^{}]*`. -/
def grabOuter : List Char → Option (List Char)
  | [] => none
  | c :: rest =>
    if c = '\x7d' then some [c]
    else if c = '\x7b' then
      match grabInner rest with
      | some m => some (c :: m)
      | none => none
    else
      match grabOuter rest with
      | some m => some (c :: m)
      | none => none

/-- Scanning at depth 2: a `\x7d` returns to depth 1, a further `\x7b` makes
the whole pattern fail at this start position. -/
def grabInner : List Char → Option (List Char)
  | [] => none
  | c :: rest =>
    if c = '\x7d' then
      match grabOuter rest with
      | some m => some (c :: m)
      | none => none
    else if c = '\x7b' then none
    else
      match grabInner rest with
      | some m => some (c :: m)
      | none => none
end

/-- The regex pattern anchored at a start position. -/
def regexObjectAt : List Char → Option (List Char)
  | [] => none
  | c :: rest =>
    if c = '\x7b' then
      match grabOuter rest with
      | some m => some (c :: m)
      | none => none
    else none

/-- `re.search` of the source's JSON-extraction pattern: leftmost match. -/
def extractJsonCandidate (l : List Char) : Option (List Char) :=
  searchFirst regexObjectAt l

/-- Modelled from the spec: "extract the first balanced brace-delimited
object" — the matching close of an opening brace at arbitrary nesting depth. -/
def balancedEndAux : List Char → Nat → Option (List Char)
  | [], _ => none
  | c :: rest, d =>
    if c = '\x7d' then
      if d = 1 then some [c]
      else
        match balancedEndAux rest (d - 1) with
        | some m => some (c :: m)
        | none => none
    else if c = '\x7b' then
      match balancedEndAux rest (d + 1) with
      | some m => some (c :: m)
      | none => none
    else
      match balancedEndAux rest d with
      | some m => some (c :: m)
      | none => none

/-- Modelled from the spec: a balanced brace-delimited block anchored at a
start position. -/
def balancedObjectAt : List Char → Option (List Char)
  | [] => none
  | c :: rest =>
    if c = '\x7b' then (balancedEndAux rest 1).map (fun m => c :: m) else none

/-- Modelled from the spec: the first (leftmost) balanced brace-delimited
object of the text. -/
def firstBalancedObject (l : List Char) : Option (List Char) :=
  searchFirst balancedObjectAt l

/-- Brace-balance check: walking the list from depth `d`, braces never
underflow and the final depth is 0. -/
def braceDepthOk : List Char → Nat → Bool
  | [], d => decide (d = 0)
  | c :: rest, d =>
    if c = '\x7d' then
      if d = 0 then false else braceDepthOk rest (d - 1)
    else if c = '\x7b' then braceDepthOk rest (d + 1)
    else braceDepthOk rest d

/-- The JSON-extraction tail of `run_agent` (lines 149-158), parameterized by
the outcome of the stdlib `json.loads` on the matched text (`some` = the
parsed value, `none` = it raised `json.JSONDecodeError`, the only exception
`json.loads` raises on a `str` and exactly what the source's `except`
catches).  On a regex match the source returns `json.loads(match)` or, if
that raises, the dict `("error": "Invalid JSON", "raw": result_str)`; with no
match it returns `("error": "No JSON found in response", "raw": result_str)`.
Both failure dicts are modelled as `Except.error (error-message, raw)`;
returning rather than raising corresponds to this function being total. -/
def extract_agent_result {J : Type} (jsonLoads : List Char → Option J)
    (result_str : List Char) : Except (String × List Char) J :=
  match extractJsonCandidate result_str with
  | some m =>
    match jsonLoads m with
    | some j => Except.ok j
    | none => Except.error ("Invalid JSON", result_str)
  | none => Except.error ("No JSON found in response", result_str)

/-! ## Concrete instances used by counterexamples and witnesses -/

/-- A catalog record with every key absent (any fixed record works: only its
value-equality behaviour matters). -/
def toolA : Tool := {}

/-- Four tools identical except for the IP rating: one distinct voltage, one
distinct application type, one distinct torque range, two distinct IP
ratings. -/
def c4tools : List Tool :=
  [{ tool_name := some "T", category := some "C", application_type := some "Manual",
     voltage := some "18V", torque_range := some (TRVal.str "5-100 Nm"),
     ip_rating := some "IP40" },
   { tool_name := some "T", category := some "C", application_type := some "Manual",
     voltage := some "18V", torque_range := some (TRVal.str "5-100 Nm"),
     ip_rating := some "IP54" },
   { tool_name := some "T", category := some "C", application_type := some "Manual",
     voltage := some "18V", torque_range := some (TRVal.str "5-100 Nm"),
     ip_rating := some "IP40" },
   { tool_name := some "T", category := some "C", application_type := some "Manual",
     voltage := some "18V", torque_range := some (TRVal.str "5-100 Nm"),
     ip_rating := some "IP54" }]

/-- A session last touched at time 0. -/
def wSession : SessionData :=
  { session_id := "alice", conversation_history := [], extracted_filters := {}
    last_query := "", clarification_count := 0, created_at := 0, last_accessed := 0 }

/-- A store holding exactly `wSession`. -/
def wStore : SessionStore := fun k => if k = "alice" then some wSession else none

/-- The text `("a": ("b": ("c": 1)))` with braces: a JSON object of brace
nesting depth 3. -/
def c9text : List Char :=
  ['\x7b', '"', 'a', '"', ':', ' ', '\x7b', '"', 'b', '"', ':', ' ',
   '\x7b', '"', 'c', '"', ':', ' ', '1', '\x7d', '\x7d', '\x7d']

/-! ## Shared helper lemmas -/

theorem searchFirst_eq_some {f : List Char → Option α} {l : List Char} {a : α}
    (h : searchFirst f l = some a) : ∃ l', l' <:+ l ∧ f l' = some a := by
  induction l with
  | nil => simp [searchFirst] at h
  | cons c rest ih =>
    rw [searchFirst] at h
    cases hf : f (c :: rest) with
    | some b =>
      rw [hf] at h
      simp only [Option.some.injEq] at h
      exact ⟨c :: rest, List.suffix_refl _, by rw [hf, h]⟩
    | none =>
      rw [hf] at h
      obtain ⟨l', hs, hfl⟩ := ih h
      exact ⟨l', hs.trans (List.suffix_cons c rest), hfl⟩

theorem matchRangeAt_head_digit {l : List Char} {p : Nat × Nat}
    (h : matchRangeAt l = some p) : ∃ c ∈ l, c.isDigit = true := by
  unfold matchRangeAt at h
  cases l with
  | nil => simp at h
  | cons c rest =>
    by_cases hd : c.isDigit
    · exact ⟨c, List.mem_cons_self c rest, hd⟩
    · simp [List.takeWhile_cons, hd] at h

theorem searchRangePair_has_digit {s : String} {p : Nat × Nat}
    (h : searchRangePair s = some p) : ∃ c ∈ s.toList, c.isDigit = true := by
  obtain ⟨l', hs, hm⟩ := searchFirst_eq_some h
  obtain ⟨c, hc, hcd⟩ := matchRangeAt_head_digit hm
  exact ⟨c, hs.subset hc, hcd⟩

theorem digit_not_pySpace {c : Char} (hd : c.isDigit = true) : isPySpace c = false := by
  cases hsp : isPySpace c
  · rfl
  · simp only [isPySpace, Bool.or_eq_true, decide_eq_true_eq] at hsp
    rcases hsp with ((((h | h) | h) | h) | h) | h <;> subst h <;> simp at hd

theorem pyStrip_nil_all_space {l : List Char} (h : (pyStrip l).isEmpty = true) :
    ∀ c ∈ l, isPySpace c = true := by
  intro c hc
  rw [List.isEmpty_iff] at h
  unfold pyStrip at h
  rw [List.reverse_eq_nil_iff, List.dropWhile_eq_nil_iff] at h
  have hdrop : ∀ x ∈ l.dropWhile isPySpace, isPySpace x = true := by
    intro x hx
    exact h x (by simpa using hx)
  rcases (List.mem_append.1 (by
      rw [List.takeWhile_append_dropWhile (p := isPySpace)]; exact hc)) with htk | hdr
  · exact List.mem_takeWhile_imp htk
  · exact hdrop c hdr

theorem ofilter_sublist (o : Option β) (p : β → Tool → Bool) (ts : List Tool) :
    (ofilter o p ts).Sublist ts := by
  cases o with
  | none => exact List.Sublist.refl ts
  | some v => exact List.filter_sublist ts

theorem ofilter_comm (o1 : Option β) (p1 : β → Tool → Bool) (o2 : Option γ)
    (p2 : γ → Tool → Bool) (ts : List Tool) :
    ofilter o1 p1 (ofilter o2 p2 ts) = ofilter o2 p2 (ofilter o1 p1 ts) := by
  cases o1 <;> cases o2 <;> simp only [ofilter]
  exact List.filter_comm _ _ _

/-! ## Claim theorems -/

/-- Claim C5: any query whose lowercased text contains both "manual" and
"portable" gets `application_type = "Manual / Portable"`, never `"Manual"`:
the "portable" keyword fires the first rule of the ordered decision list. -/
theorem extract_filters_manual_portable (q : String)
    (_hm : pyContains "manual" (strLower q) = true)
    (hp : pyContains "portable" (strLower q) = true) :
    (extract_filters q).application_type = some "Manual / Portable" ∧
      (extract_filters q).application_type ≠ some "Manual" := by
  have happ : appTypeOf (strLower q) = some "Manual / Portable" := by
    unfold appTypeOf
    rw [hp]
    simp
  refine ⟨?_, ?_⟩ <;> simp [extract_filters, happ]

/-- Witness for C5 at the concrete query "manual portable". -/
theorem extract_filters_manual_portable_witness :
    (extract_filters "manual portable").application_type = some "Manual / Portable" ∧
      (extract_filters "manual portable").application_type ≠ some "Manual" :=
  extract_filters_manual_portable "manual portable" (by decide) (by decide)

/-- Claim C7: the empty FilterSet is the identity for `apply_metadata_filters`;
every result is an order-preserving (stable) subsequence of the input; and
applying the independent per-key predicates in the reverse order yields the
same result. -/
theorem apply_metadata_filters_props :
    (∀ tools, apply_metadata_filters tools {} = tools) ∧
    (∀ tools filters, (apply_metadata_filters tools filters).Sublist tools) ∧
    (∀ tools filters,
      apply_metadata_filters_revorder tools filters = apply_metadata_filters tools filters) := by
  refine ⟨fun tools => rfl, ?_, ?_⟩
  · intro tools f
    unfold apply_metadata_filters
    by_cases h : f.isEmpty
    · rw [if_pos h]
    · rw [if_neg h]
      exact ((((ofilter_sublist _ _ _).trans (ofilter_sublist _ _ _)).trans
        (ofilter_sublist _ _ _)).trans (ofilter_sublist _ _ _))
  · intro tools f
    unfold apply_metadata_filters apply_metadata_filters_revorder
    by_cases h : f.isEmpty
    · rw [if_pos h, if_pos h]
    · rw [if_neg h, if_neg h]
      rw [ofilter_comm f.application_type appPred f.torque torquePred tools]
      rw [ofilter_comm f.ip_rating ipPred f.torque torquePred]
      rw [ofilter_comm f.voltage voltagePred f.torque torquePred]
      rw [ofilter_comm f.ip_rating ipPred f.application_type appPred tools]
      rw [ofilter_comm f.voltage voltagePred f.application_type appPred]
      rw [ofilter_comm f.voltage voltagePred f.ip_rating ipPred tools]

/-- Unfolding equation of `_torque_in_range` on a string argument. -/
theorem torque_in_range_str (t : Int) (s : String) :
    _torque_in_range t (some (TRVal.str s)) =
      (if s = "" then false
       else if s = "NaN" then false
       else if (pyStrip s.toList).isEmpty = true then false
       else
         match searchRangePair s with
         | some (lo, hi) => decide ((lo : Int) ≤ t ∧ t ≤ (hi : Int))
         | none => false) := rfl

/-- Claim C6: `_torque_in_range t s` is true iff `s` contains an
`<int>-<int>` range (hyphen or en-dash) whose inclusive bounds contain `t`;
the quoted concrete cases hold; the en-dash string behaves identically to the
hyphen variant; missing (`None`), empty, non-string and literal-"NaN" inputs
always yield false. -/
theorem torque_in_range_spec :
    (∀ (t : Int) (s : String),
      _torque_in_range t (some (TRVal.str s)) = true ↔
        ∃ lo hi, searchRangePair s = some (lo, hi) ∧ (lo : Int) ≤ t ∧ t ≤ (hi : Int)) ∧
    _torque_in_range 50 (some (TRVal.str "5-100 Nm")) = true ∧
    _torque_in_range 150 (some (TRVal.str "5-100 Nm")) = false ∧
    _torque_in_range 50 (some (TRVal.str "NaN")) = false ∧
    _torque_in_range 50 (some (TRVal.str "")) = false ∧
    (∀ t : Int,
      _torque_in_range t (some (TRVal.str "5–100 Nm")) =
        _torque_in_range t (some (TRVal.str "5-100 Nm"))) ∧
    (∀ t : Int, _torque_in_range t none = false) ∧
    (∀ t : Int, _torque_in_range t (some TRVal.nanFloat) = false) := by
  have main : ∀ (t : Int) (s : String),
      _torque_in_range t (some (TRVal.str s)) = true ↔
        ∃ lo hi, searchRangePair s = some (lo, hi) ∧ (lo : Int) ≤ t ∧ t ≤ (hi : Int) := by
    intro t s
    constructor
    · intro h
      rw [torque_in_range_str] at h
      split_ifs at h
      cases hp : searchRangePair s with
      | none => rw [hp] at h; exact absurd h (by simp)
      | some p =>
        obtain ⟨lo, hi⟩ := p
        rw [hp] at h
        exact ⟨lo, hi, rfl, of_decide_eq_true h⟩
    · rintro ⟨lo, hi, hp, h1, h2⟩
      obtain ⟨c, hc, hcd⟩ := searchRangePair_has_digit hp
      have hs0 : ¬(s = "") := by
        rintro rfl; simp at hc
      have hsN : ¬(s = "NaN") := by
        rintro rfl
        have : ¬∃ c ∈ "NaN".toList, c.isDigit = true := by decide
        exact this ⟨c, hc, hcd⟩
      have hstrip : ¬((pyStrip s.toList).isEmpty = true) := by
        intro hstr
        have := pyStrip_nil_all_space hstr c hc
        rw [digit_not_pySpace hcd] at this
        exact Bool.false_ne_true this
      rw [torque_in_range_str, if_neg hs0, if_neg hsN, if_neg hstrip, hp]
      exact decide_eq_true ⟨h1, h2⟩
  have e1 : searchRangePair "5–100 Nm" = some (5, 100) := by decide
  have e2 : searchRangePair "5-100 Nm" = some (5, 100) := by decide
  refine ⟨main, by decide, by decide, by decide, by decide, ?_, fun t => rfl, fun t => rfl⟩
  intro t
  rw [Bool.eq_iff_iff, main t _, main t _]
  constructor <;> rintro ⟨lo, hi, hp, h⟩
  · rw [e1] at hp
    exact ⟨lo, hi, by rw [e2, ← hp], h⟩
  · rw [e2] at hp
    exact ⟨lo, hi, by rw [e1, ← hp], h⟩

/-- Witness for C6: the general range characterization applied at
`t = 50`, `s = "2-80 Nm"`. -/
theorem torque_in_range_spec_witness :
    _torque_in_range 50 (some (TRVal.str "2-80 Nm")) = true :=
  (torque_in_range_spec.1 50 "2-80 Nm").2 ⟨2, 80, by decide, by decide, by decide⟩

/-- A chain of `if _ then true` branches is the disjunction of its guards. -/
theorem ite_chain_or (a b c d : Bool) :
    (if a then true else if b then true else if c then true else if d then true else false)
      = (a || b || c || d) := by
  cases a <;> cases b <;> cases c <;> cases d <;> rfl

/-- Claim C2: `needs_clarification` implements the six-rule ordered decision
policy of the spec, with the first applicable rule deciding. -/
theorem needs_clarification_eq_policy :
    ∀ catalog q f r,
      needs_clarification catalog q f r = needs_clarification_policy catalog q f r := by
  intro catalog q f r
  simp only [needs_clarification, needs_clarification_policy]
  have h01 : (decide (r.length > 0)) = (decide (1 ≤ r.length)) := by
    apply decide_eq_decide.2
    omega
  rw [h01]
  congr 1
  congr 1
  exact ite_chain_or _ _ _ _

/-- Claim C3: when the query's extracted FilterSet is non-empty and the
metadata-filtered catalog subset is empty, `retrieve_tools` returns the empty
list (no fallback to unfiltered search), and `needs_clarification` answers
true on an empty result list for every query/filters combination, so the
zero-result outcome is routed to clarification upstream rather than raised. -/
theorem retrieve_tools_no_match_empty :
    ∀ (catalog : List Tool) (allRanked : List Nat) (q : String) (k : Nat),
      (extract_filters q).isEmpty = false →
      apply_metadata_filters catalog (extract_filters q) = [] →
      retrieve_tools catalog allRanked q k true = [] ∧
        (∀ (catalog2 : List Tool) (f : FilterSet),
          needs_clarification catalog2 q f [] = true) := by
  intro catalog rk q k hne happ
  constructor
  · simp [retrieve_tools, hne, happ]
  · intro catalog2 f
    simp only [needs_clarification, List.length_nil]
    simp

/-- Witness for C3 at catalog `[]` and query `"18V"` (which extracts a
voltage filter). -/
theorem retrieve_tools_no_match_empty_witness :
    retrieve_tools [] [] "18V" 3 true = [] ∧ needs_clarification [] "18V" {} [] = true :=
  ⟨(retrieve_tools_no_match_empty [] [] "18V" 3 (by decide) rfl).1,
   (retrieve_tools_no_match_empty [] [] "18V" 3 (by decide) rfl).2 [] {}⟩

/-- Counterexample to claim C1 as stated: subset identity is NOT positional.
In the catalog `[toolA, toolA]` take the filtered subset consisting of the
tool at position 1 (so the subset of catalog positions is `[1]`).  The code's
`all_tools.index(tool)` lookup aliases it to the first occurrence, so the
selected catalog position is 0, which is not a member of the subset's
positions — two structurally identical tools at different positions are NOT
distinguished. -/
theorem semantic_search_positional_counterexample :
    List.filterMap (fun p => ([toolA, toolA] : List Tool).get? p) [1] = [toolA] ∧
    semanticMatchedIndices [toolA] [toolA, toolA] [0, 1] = [0] ∧
    (0 : Nat) ∉ ([1] : List Nat) ∧
    semantic_search_on_subset [toolA] [toolA, toolA] [0, 1] 1 = [toolA] := by
  refine ⟨rfl, ?_, by decide, ?_⟩ <;> decide

/-- Claim C1 (amended): subset membership is value equality aliased to the
first catalog occurrence, so — provided every subset member occurs in the
catalog — every returned tool is (a value equal to) a member of the filtered
subset; the surviving index list preserves similarity order (it is a sublist
of the ranked list); and the result is non-empty whenever the subset is
non-empty and `top_k ≥ 1` (via the catalog-order fallback if necessary). -/
theorem semantic_search_on_subset_props :
    ∀ (filtered_tools all_tools : List Tool) (allRanked : List Nat) (top_k : Nat),
      (∀ t ∈ filtered_tools, t ∈ all_tools) →
      (∀ r ∈ semantic_search_on_subset filtered_tools all_tools allRanked top_k,
          r ∈ filtered_tools) ∧
      (semanticMatchedIndices filtered_tools all_tools allRanked).Sublist allRanked ∧
      (filtered_tools ≠ [] → 1 ≤ top_k →
        semantic_search_on_subset filtered_tools all_tools allRanked top_k ≠ []) := by
  intro ft at_ rk k hsub
  refine ⟨?_, List.filter_sublist rk, ?_⟩
  · intro r hr
    simp only [semantic_search_on_subset] at hr
    by_cases hres :
        (((semanticMatchedIndices ft at_ rk).take k).filterMap
          (fun idx => at_.get? idx)).isEmpty = true
    · rw [if_pos hres] at hr
      exact (List.take_sublist k ft).subset hr
    · rw [if_neg hres] at hr
      obtain ⟨idx, hidx, hget⟩ := List.mem_filterMap.1 hr
      have hidx' : idx ∈ semanticMatchedIndices ft at_ rk :=
        (List.take_sublist k _).subset hidx
      obtain ⟨_, hpred⟩ := List.mem_filter.1 hidx'
      obtain ⟨t, ht, hidxeq⟩ := List.mem_map.1 (of_decide_eq_true hpred)
      have hsome : at_.get? idx = some t := by
        rw [← hidxeq]
        exact List.indexOf_get? (hsub t ht)
      rw [hsome] at hget
      obtain rfl : t = r := Option.some.inj hget
      exact ht
  · intro hne hk
    simp only [semantic_search_on_subset]
    by_cases hres :
        (((semanticMatchedIndices ft at_ rk).take k).filterMap
          (fun idx => at_.get? idx)).isEmpty = true
    · rw [if_pos hres]
      cases ft with
      | nil => exact absurd rfl hne
      | cons a l =>
        cases k with
        | zero => omega
        | succ k' => simp
    · rw [if_neg hres]
      intro hcon
      rw [hcon] at hres
      exact hres rfl

/-- Witness for C1 (amended) at a two-element catalog with distinct tools:
the tool returned there is a member of the subset, and the result is
non-empty. -/
theorem semantic_search_on_subset_props_witness :
    ({ tool_name := some "B" } : Tool) ∈ [({ tool_name := some "B" } : Tool)] ∧
    semantic_search_on_subset [{ tool_name := some "B" }]
        [{ tool_name := some "A" }, { tool_name := some "B" }] [0, 1] 1 ≠ [] := by
  have h := semantic_search_on_subset_props [{ tool_name := some "B" }]
    [{ tool_name := some "A" }, { tool_name := some "B" }] [0, 1] 1 (by decide)
  exact ⟨h.1 _ (by decide), h.2.2 (by decide) (by decide)⟩

/-- Counterexample to claim C4 as stated: with no filters and four tools
sharing one voltage, one application type and one torque range but two
distinct IP ratings, the code proposes the torque question (its filtered
candidates have only ONE distinct value) and skips the IP-rating question
(because an earlier question exists), while the claim's construction proposes
only the IP-rating question. -/
theorem genclar_dimension_rule_counterexample :
    c4tools.length > 3 ∧
    (generate_clarification_question "nutrunner" {} c4tools c4tools).questions
      = ["What torque range do you require?"] ∧
    (genclarTooManyClaimed {} c4tools).questions = ["Do you need a specific IP rating?"] ∧
    (generate_clarification_question "nutrunner" {} c4tools c4tools).questions
      ≠ (genclarTooManyClaimed {} c4tools).questions := by
  exact ⟨by decide, by decide, by decide, by decide⟩

/-- Claim C4 (amended): on more than 3 results the payload has status
"needs_clarification", at most 2 questions, and its question list is the
ordered concatenation voltage, application type, torque, IP rating truncated
to 2, where voltage/application type require more than one distinct candidate
value, torque requires only a non-empty candidate list, and IP rating is
checked only when no earlier question was produced. -/
theorem genclar_too_many_amended :
    ∀ (q : String) (f : FilterSet) (ft allT : List Tool),
      ft.length > 3 →
      (generate_clarification_question q f ft allT).status = "needs_clarification" ∧
      (generate_clarification_question q f ft allT).questions.length ≤ 2 ∧
      (generate_clarification_question q f ft allT).questions
        = (qVolt f ft ++ qApp f ft ++ qTorque f ft ++ qIp f ft).take 2 := by
  intro q f ft allT hlen
  have hgen : generate_clarification_question q f ft allT = genclarTooMany f ft := by
    unfold generate_clarification_question
    rw [if_neg (by omega), if_pos hlen]
  have hq : (genclarTooMany f ft).questions
      = (qVolt f ft ++ qApp f ft ++ qTorque f ft ++ qIp f ft).take 2 := by
    by_cases c1 : (f.voltage.isNone && decide ((voltageCandidates ft).length > 1)) = true <;>
    by_cases c2 : (f.application_type.isNone
        && decide ((appTypeCandidates ft).length > 1)) = true <;>
    by_cases c3 : (f.torque.isNone && !(torqueCandidates ft).isEmpty) = true <;>
    by_cases c4 : (f.ip_rating.isNone && decide ((ipCandidates ft).length > 1)) = true <;>
    simp [genclarTooMany, qVolt, qApp, qTorque, qIp, c1, c2, c3, c4]
  refine ⟨by rw [hgen]; rfl, ?_, by rw [hgen, hq]⟩
  rw [hgen, hq]
  exact List.length_take_le 2 _

/-- Witness for C4 (amended) at the concrete counterexample tools. -/
theorem genclar_too_many_amended_witness :
    (generate_clarification_question "nutrunner" {} c4tools c4tools).status
      = "needs_clarification" ∧
    (generate_clarification_question "nutrunner" {} c4tools c4tools).questions.length ≤ 2 ∧
    (generate_clarification_question "nutrunner" {} c4tools c4tools).questions
      = (qVolt {} c4tools ++ qApp {} c4tools ++ qTorque {} c4tools ++ qIp {} c4tools).take 2 :=
  genclar_too_many_amended "nutrunner" {} c4tools c4tools (by decide)

/-- Claim C10: when all four filter keys are present and more than 3 tools
remain, the too-many-results payload has an empty question list and an empty
suggestions mapping. -/
theorem genclar_all_filters_no_questions :
    ∀ (q : String) (f : FilterSet) (ft allT : List Tool),
      f.voltage.isSome = true → f.torque.isSome = true →
      f.ip_rating.isSome = true → f.application_type.isSome = true →
      ft.length > 3 →
      (generate_clarification_question q f ft allT).questions = [] ∧
      (generate_clarification_question q f ft allT).suggestions = ({} : Suggestions) := by
  intro q f ft allT hv ht hi ha hlen
  have hgen : generate_clarification_question q f ft allT = genclarTooMany f ft := by
    unfold generate_clarification_question
    rw [if_neg (by omega), if_pos hlen]
  have hv' : f.voltage.isNone = false := by simp [Option.isNone_eq_false_iff, ← Option.isSome_iff_exists, hv]
  have ht' : f.torque.isNone = false := by simp [Option.isNone_eq_false_iff, ← Option.isSome_iff_exists, ht]
  have hi' : f.ip_rating.isNone = false := by simp [Option.isNone_eq_false_iff, ← Option.isSome_iff_exists, hi]
  have ha' : f.application_type.isNone = false := by simp [Option.isNone_eq_false_iff, ← Option.isSome_iff_exists, ha]
  rw [hgen]
  constructor <;> simp [genclarTooMany, hv', ht', hi', ha']

/-- Witness for C10: four concrete filters, four tools. -/
theorem genclar_all_filters_no_questions_witness :
    (generate_clarification_question "q"
        { voltage := some "18V", torque := some 50, ip_rating := some "IP40",
          application_type := some "Manual" } c4tools c4tools).questions = [] ∧
    (generate_clarification_question "q"
        { voltage := some "18V", torque := some 50, ip_rating := some "IP40",
          application_type := some "Manual" } c4tools c4tools).suggestions
      = ({} : Suggestions) :=
  genclar_all_filters_no_questions "q" _ c4tools c4tools rfl rfl rfl rfl (by decide)

/-- Claim C8: a session whose inactivity strictly exceeds the 30-minute
window is evicted during the next lookup, so `get_session` on that id yields
a fresh session with empty history, empty filters and zero clarification
count; a session within the window survives cleanup and its `last_accessed`
is refreshed by the lookup; and an expired session is evicted even by a
lookup of a different id. -/
theorem session_eviction_spec :
    ∀ (store : SessionStore) (sid : String) (now : Nat) (s : SessionData),
      (store sid = some s → now - s.last_accessed > SESSION_TIMEOUT →
        (get_session sid now store).1 =
          { session_id := sid, conversation_history := [], extracted_filters := {}
            last_query := "", clarification_count := 0, created_at := now,
            last_accessed := now }) ∧
      (store sid = some s → ¬(now - s.last_accessed > SESSION_TIMEOUT) →
        cleanup_expired_sessions now store sid = some s ∧
        (get_session sid now store).1 = { s with last_accessed := now }) ∧
      (store sid = some s → now - s.last_accessed > SESSION_TIMEOUT →
        ∀ sid2, sid2 ≠ sid → (get_session sid2 now store).2 sid = none) := by
  intro store sid now s
  refine ⟨?_, ?_, ?_⟩
  · intro h1 h2
    have hclean : cleanup_expired_sessions now store sid = none := by
      simp [cleanup_expired_sessions, h1, h2]
    simp [get_session, hclean, create_session]
  · intro h1 h2
    have hclean : cleanup_expired_sessions now store sid = some s := by
      simp [cleanup_expired_sessions, h1, h2]
    exact ⟨hclean, by simp [get_session, hclean]⟩
  · intro h1 h2 sid2 hne
    have hclean : cleanup_expired_sessions now store sid = none := by
      simp [cleanup_expired_sessions, h1, h2]
    cases hc2 : cleanup_expired_sessions now store sid2 with
    | some s2 =>
      simp only [get_session, hc2]
      rw [if_neg (fun heq => hne heq.symm), hclean]
    | none =>
      simp only [get_session, hc2, create_session]
      rw [if_neg (fun heq => hne heq.symm), hclean]

/-- Witness for C8: the session `wSession` (last accessed at 0) under lookups
at times 1801 (expired: fresh session; evicted even via another id) and 100
(retained and refreshed). -/
theorem session_eviction_spec_witness :
    (get_session "alice" 1801 wStore).1 =
      { session_id := "alice", conversation_history := [], extracted_filters := {}
        last_query := "", clarification_count := 0, created_at := 1801,
        last_accessed := 1801 } ∧
    (get_session "bob" 1801 wStore).2 "alice" = none ∧
    cleanup_expired_sessions 100 wStore "alice" = some wSession ∧
    (get_session "alice" 100 wStore).1 = { wSession with last_accessed := 100 } :=
  ⟨(session_eviction_spec wStore "alice" 1801 wSession).1 (by decide) (by decide),
   (session_eviction_spec wStore "alice" 1801 wSession).2.2 (by decide) (by decide)
     "bob" (by decide),
   ((session_eviction_spec wStore "alice" 100 wSession).2.1 (by decide) (by decide)).1,
   ((session_eviction_spec wStore "alice" 100 wSession).2.1 (by decide) (by decide)).2⟩

/-- Both branch matchers of the depth-limited regex produce brace-balanced
text at their respective depths. -/
theorem grab_braceDepthOk : ∀ l : List Char,
    (∀ m, grabOuter l = some m → braceDepthOk m 1 = true) ∧
    (∀ m, grabInner l = some m → braceDepthOk m 2 = true) := by
  intro l
  induction l with
  | nil =>
    constructor <;> intro m h <;> simp [grabOuter, grabInner] at h
  | cons c rest ih =>
    obtain ⟨ihO, ihI⟩ := ih
    constructor
    · intro m h
      by_cases h1 : c = '\x7d'
      · rw [grabOuter, if_pos h1] at h
        obtain rfl : [c] = m := Option.some.inj h
        simp [braceDepthOk, h1]
      · by_cases h2 : c = '\x7b'
        · rw [grabOuter, if_neg h1, if_pos h2] at h
          cases hg : grabInner rest with
          | none => rw [hg] at h; exact absurd h (by simp)
          | some mi =>
            rw [hg] at h
            obtain rfl : c :: mi = m := Option.some.inj h
            have : braceDepthOk (c :: mi) 1 = braceDepthOk mi 2 := by
              simp [braceDepthOk, h1, h2]
            rw [this]
            exact ihI mi hg
        · rw [grabOuter, if_neg h1, if_neg h2] at h
          cases hg : grabOuter rest with
          | none => rw [hg] at h; exact absurd h (by simp)
          | some mo =>
            rw [hg] at h
            obtain rfl : c :: mo = m := Option.some.inj h
            have : braceDepthOk (c :: mo) 1 = braceDepthOk mo 1 := by
              simp [braceDepthOk, h1, h2]
            rw [this]
            exact ihO mo hg
    · intro m h
      by_cases h1 : c = '\x7d'
      · rw [grabInner, if_pos h1] at h
        cases hg : grabOuter rest with
        | none => rw [hg] at h; exact absurd h (by simp)
        | some mo =>
          rw [hg] at h
          obtain rfl : c :: mo = m := Option.some.inj h
          have : braceDepthOk (c :: mo) 2 = braceDepthOk mo 1 := by
            simp [braceDepthOk, h1]
          rw [this]
          exact ihO mo hg
      · by_cases h2 : c = '\x7b'
        · rw [grabInner, if_neg h1, if_pos h2] at h
          exact absurd h (by simp)
        · rw [grabInner, if_neg h1, if_neg h2] at h
          cases hg : grabInner rest with
          | none => rw [hg] at h; exact absurd h (by simp)
          | some mi =>
            rw [hg] at h
            obtain rfl : c :: mi = m := Option.some.inj h
            have : braceDepthOk (c :: mi) 2 = braceDepthOk mi 2 := by
              simp [braceDepthOk, h1, h2]
            rw [this]
            exact ihI mi hg

/-- Every text the extraction regex matches is a balanced brace block. -/
theorem extract_candidate_balanced :
    ∀ (l m : List Char), extractJsonCandidate l = some m → braceDepthOk m 0 = true := by
  intro l m h
  obtain ⟨l', _, hm⟩ := searchFirst_eq_some h
  cases l' with
  | nil => simp [regexObjectAt] at hm
  | cons c rest =>
    by_cases hc : c = '\x7b'
    · rw [regexObjectAt, if_pos hc] at hm
      cases hg : grabOuter rest with
      | none => rw [hg] at hm; exact absurd hm (by simp)
      | some mo =>
        rw [hg] at hm
        obtain rfl : c :: mo = m := Option.some.inj hm
        have : braceDepthOk (c :: mo) 0 = braceDepthOk mo 1 := by
          simp [braceDepthOk, hc]
        rw [this]
        exact (grab_braceDepthOk rest).1 mo hg
    · rw [regexObjectAt, if_neg hc] at hm
      exact absurd hm (by simp)

/-- Counterexample to claim C9 as stated: on a JSON object of brace nesting
depth 3, the first balanced brace-delimited object is the whole text, but the
code's regex (which only admits nesting depth ≤ 2) extracts an inner
sub-object starting later in the text. -/
theorem json_first_balanced_counterexample :
    firstBalancedObject c9text = some c9text ∧
    extractJsonCandidate c9text
      = some ['\x7b', '"', 'b', '"', ':', ' ', '\x7b', '"', 'c', '"', ':', ' ',
              '1', '\x7d', '\x7d'] ∧
    extractJsonCandidate c9text ≠ firstBalancedObject c9text := by
  exact ⟨by decide, by decide, by decide⟩

/-- Claim C9 (amended): the orchestrator extracts the leftmost substring
matching the depth-≤2 brace pattern — always a balanced brace-delimited
block, though not necessarily the first balanced brace-delimited object (see
the counterexample) — tolerating any surrounding non-JSON text; when no
substring matches, or when `json.loads` on the matched substring fails with
a `JSONDecodeError`, it returns a structured payload carrying an error field
and the raw text rather than raising an exception; on a successful parse it
returns the parsed value. -/
theorem run_agent_json_extraction :
    ∀ (J : Type) (jsonLoads : List Char → Option J) (rs : List Char),
      (extractJsonCandidate rs = none →
        extract_agent_result jsonLoads rs
          = Except.error ("No JSON found in response", rs)) ∧
      (∀ m, extractJsonCandidate rs = some m →
        braceDepthOk m 0 = true ∧
        (jsonLoads m = none →
          extract_agent_result jsonLoads rs = Except.error ("Invalid JSON", rs)) ∧
        (∀ j, jsonLoads m = some j →
          extract_agent_result jsonLoads rs = Except.ok j)) := by
  intro J jsonLoads rs
  constructor
  · intro h
    simp [extract_agent_result, h]
  · intro m h
    refine ⟨extract_candidate_balanced rs m h, ?_, ?_⟩
    · intro hp
      simp [extract_agent_result, h, hp]
    · intro j hp
      simp [extract_agent_result, h, hp]

/-- Witness for C9 (amended): a match-free text yields the no-JSON error
payload; on the depth-3 text the matched block is balanced, a failing
`json.loads` yields the invalid-JSON error payload, and a succeeding one
yields its parsed value. -/
theorem run_agent_json_extraction_witness :
    extract_agent_result (fun m => some m) ['n', 'o', 'p', 'e']
      = Except.error ("No JSON found in response", ['n', 'o', 'p', 'e']) ∧
    braceDepthOk ['\x7b', '"', 'b', '"', ':', ' ', '\x7b', '"', 'c', '"', ':', ' ',
                  '1', '\x7d', '\x7d'] 0 = true ∧
    extract_agent_result (fun _ => (none : Option (List Char))) c9text
      = Except.error ("Invalid JSON", c9text) ∧
    extract_agent_result (fun m => some m) c9text
      = Except.ok ['\x7b', '"', 'b', '"', ':', ' ', '\x7b', '"', 'c', '"', ':', ' ',
                   '1', '\x7d', '\x7d'] :=
  ⟨(run_agent_json_extraction (List Char) (fun m => some m) ['n', 'o', 'p', 'e']).1
     (by decide),
   ((run_agent_json_extraction (List Char) (fun m => some m) c9text).2
     ['\x7b', '"', 'b', '"', ':', ' ', '\x7b', '"', 'c', '"', ':', ' ',
      '1', '\x7d', '\x7d'] (by decide)).1,
   ((run_agent_json_extraction (List Char) (fun _ => none) c9text).2
     ['\x7b', '"', 'b', '"', ':', ' ', '\x7b', '"', 'c', '"', ':', ' ',
      '1', '\x7d', '\x7d'] (by decide)).2.1 rfl,
   ((run_agent_json_extraction (List Char) (fun m => some m) c9text).2
     ['\x7b', '"', 'b', '"', ':', ' ', '\x7b', '"', 'c', '"', ':', ' ',
      '1', '\x7d', '\x7d'] (by decide)).2.2
     ['\x7b', '"', 'b', '"', ':', ' ', '\x7b', '"', 'c', '"', ':', ' ',
      '1', '\x7d', '\x7d'] rfl⟩

end ProductIntel
